import Mathlib

/-!
Shallow embedding of the flask_pyhton course-platform backend
(src/app/models.py and src/app/routes/), together with proofs about its
behaviour.  Handlers are modelled as pure functions over an explicit
database state `DB`; the `Except` result is the would-be committed state:
on the `.error` side nothing is committed (every early `return` in the
Python skips `db.session.commit()`, and the uncommitted session is
discarded at request teardown), which `applyWrite` makes explicit.
Floats (prices, progress) are modelled as `Rat`; machine integers carry no
overflow in SQLite/Python, so they are `Int`/`Nat`.
-/

namespace Platform

/-- Row of the `users` table (src/app/models.py, class User).  Timestamp
columns are not modelled; no claim mentions them. -/
structure User where
  id : Nat
  email : String
  password : String
  full_name : String
  phone : Option String
  address : Option String
  role : String
  status : String
  deriving DecidableEq

/-- Row of the `courses` table (src/app/models.py, class Course).
description/duration/thumbnail are not modelled; no claim mentions them. -/
structure Course where
  id : Nat
  title : String
  price : Rat
  level : Option String
  category : Option String
  status : String
  deriving DecidableEq

/-- Row of the `products` table (src/app/models.py, class Product). -/
structure Product where
  id : Nat
  name : String
  price : Rat
  category : Option String
  stock_quantity : Int
  status : String
  deriving DecidableEq

/-- Row of the `orders` table (src/app/models.py, class Order).
`updated_at` (onupdate timestamp) is not modelled. -/
structure Order where
  id : Nat
  user_id : Nat
  total_amount : Rat
  status : String
  payment_method : Option String
  payment_status : String
  deriving DecidableEq

/-- Row of the `order_items` table (src/app/models.py, class OrderItem). -/
structure OrderItem where
  id : Nat
  order_id : Nat
  course_id : Option Nat
  product_id : Option Nat
  quantity : Int
  price : Rat
  item_type : String
  deriving DecidableEq

/-- Row of the `enrollments` table (src/app/models.py, class Enrollment).
`enrolled_at` is not modelled; `completion_date` keeps an abstract clock
value `Nat`. -/
structure Enrollment where
  id : Nat
  user_id : Nat
  course_id : Nat
  progress : Rat
  status : String
  completion_date : Option Nat
  deriving DecidableEq

/-- The persisted database.  `courses`/`products` are keyed tables
(primary-key lookup `Model.query.get`), the other tables are row lists;
the `next_*` counters model autoincrement primary keys. -/
structure DB where
  users : List User
  courses : Nat → Option Course
  products : Nat → Option Product
  orders : List Order
  order_items : List OrderItem
  enrollments : List Enrollment
  next_order_id : Nat
  next_item_id : Nat
  next_enrollment_id : Nat
  next_user_id : Nat

/-- An HTTP error response: status code and JSON `error` message. -/
abbrev Resp := Nat × String

/-- Python truthiness of an optional JSON string: `not data.get(k)` is
true when the key is absent or the value is the empty string. -/
def blank (s : Option String) : Bool := s.getD "" == ""

/-- `User.query.filter_by(email=email).first()`. -/
def userByEmail (db : DB) (email : String) : Option User :=
  db.users.find? (fun u => u.email == email)

/-- `Order.query.filter_by(id=order_id, user_id=user_id).first()`. -/
def findOrder (db : DB) (oid uid : Nat) : Option Order :=
  db.orders.find? (fun o => o.id == oid && o.user_id == uid)

/-- `Enrollment.query.filter_by(id=enrollment_id, user_id=user_id).first()`. -/
def findEnrollment (db : DB) (eid uid : Nat) : Option Enrollment :=
  db.enrollments.find? (fun e => e.id == eid && e.user_id == uid)

/-- `Enrollment.query.filter_by(user_id=user_id, course_id=item_id).first()`. -/
def enrollmentFor (db : DB) (uid cid : Nat) : Option Enrollment :=
  db.enrollments.find? (fun e => e.user_id == uid && e.course_id == cid)

/-- `order.order_items`: the relationship rows with this order id. -/
def orderItemsOf (db : DB) (oid : Nat) : List OrderItem :=
  db.order_items.filter (fun it => it.order_id == oid)

/-- ASCII whitespace stripped by Python's `str.strip()`. -/
def wsp (c : Char) : Bool := c == ' ' || c == '\t' || c == '\n' || c == '\r'

/-- Python `str.strip()` over the character list (ASCII whitespace). -/
def stripStr (s : String) : String :=
  ⟨((s.data.dropWhile wsp).reverse.dropWhile wsp).reverse⟩

/-- Python `str.lower()` over the character list (ASCII case). -/
def toLowerStr (s : String) : String := ⟨s.data.map Char.toLower⟩

/-- Python `c in s` membership test. -/
def containsChar (s : String) (c : Char) : Bool := s.data.contains c

/-- `data['email'].lower().strip()` (src/app/routes/auth.py). -/
def normalizeEmail (e : String) : String := stripStr (toLowerStr e)

/-- Modelled from the spec: the digest part of werkzeug's password hash
(external library, absent from src/) — an unspecified deterministic
function of salt and password, abstracted as a concrete numeral digest. -/
def hashDigest (salt pw : String) : String :=
  toString ((salt ++ pw).data.foldl (fun a c => (a * 131 + c.toNat) % 1000000007) 7)

/-- Modelled from the spec: `werkzeug.security.generate_password_hash`
(external library) — "creates a User with a salted password hash"; the
output is the werkzeug `method$salt$digest` format. -/
def generatePasswordHash (salt pw : String) : String :=
  "pbkdf2:sha256$" ++ salt ++ "$" ++ hashDigest salt pw

/-- Split a character list at `'$'` separators. -/
def splitDollarAux : List Char → List Char → List String
  | [], acc => [⟨acc.reverse⟩]
  | c :: rest, acc =>
    if c = '$' then ⟨acc.reverse⟩ :: splitDollarAux rest []
    else splitDollarAux rest (c :: acc)

/-- Split a hash string at `'$'` separators. -/
def splitDollar (s : String) : List String := splitDollarAux s.data []

/-- Modelled from the spec: `werkzeug.security.check_password_hash`
(external library) — parses the stored `method$salt$digest` value and
recomputes the digest for the candidate password. -/
def checkPasswordHash (stored pw : String) : Bool :=
  match splitDollar stored with
  | [_, salt, dig] => dig == hashDigest salt pw
  | _ => false

/-- Commit discipline: an `.ok` result is the committed state; on
`.error` no commit ran, so the persisted database is unchanged. -/
def applyWrite (db : DB) (r : Except Resp DB) : DB :=
  match r with
  | .ok db2 => db2
  | .error _ => db

/-- Whether a handler returned an error response. -/
def isErr {α : Type} (r : Except Resp α) : Bool :=
  match r with
  | .error _ => true
  | .ok _ => false

/-- JSON payload of POST /api/auth/register. -/
structure RegisterReq where
  email : Option String
  password : Option String
  full_name : Option String
  phone : Option String
  address : Option String
  role : Option String
  deriving DecidableEq

/-- `data.get('phone', '').strip() if data.get('phone') else None`. -/
def stripOpt (s : Option String) : Option String :=
  if blank s then none else some (stripStr (s.getD ""))

/-- `register` (src/app/routes/auth.py lines 11-61).  `salt` is the
ambient randomness consumed by `generate_password_hash`; on success the
result carries the committed state, the created user and the identity
embedded in the issued access token (`create_access_token(identity=user.id)`). -/
def register (salt : String) (db : DB) (req : RegisterReq) :
    Except Resp (DB × User × Nat) :=
  if blank req.email then .error (400, "email is required")
  else if blank req.password then .error (400, "password is required")
  else if blank req.full_name then .error (400, "full_name is required")
  else if !(containsChar (normalizeEmail (req.email.getD "")) '@') ||
          !(containsChar (normalizeEmail (req.email.getD "")) '.') then
    .error (400, "Invalid email format")
  else if (userByEmail db (normalizeEmail (req.email.getD ""))).isSome then
    .error (400, "Email already registered")
  else if (req.password.getD "").length < 6 then
    .error (400, "Password must be at least 6 characters long")
  else
    let u : User :=
      { id := db.next_user_id
        email := normalizeEmail (req.email.getD "")
        password := generatePasswordHash salt (req.password.getD "")
        full_name := stripStr (req.full_name.getD "")
        phone := stripOpt req.phone
        address := stripOpt req.address
        role := req.role.getD "student"
        status := "active" }
    .ok ({ db with users := db.users ++ [u], next_user_id := db.next_user_id + 1 },
         u, u.id)

/-- The committed state after `register`. -/
def registerApply (salt : String) (db : DB) (req : RegisterReq) : DB :=
  match register salt db req with
  | .ok (db2, _, _) => db2
  | .error _ => db

/-- The user row created by a successful `register`. -/
def registeredUser (salt : String) (db : DB) (req : RegisterReq) : Option User :=
  match register salt db req with
  | .ok (_, u, _) => some u
  | .error _ => none

/-- JSON payload of POST /api/auth/login. -/
structure LoginReq where
  email : Option String
  password : Option String
  deriving DecidableEq

/-- `login` (src/app/routes/auth.py lines 63-90); on success returns the
user and the identity embedded in the issued token. -/
def login (db : DB) (req : LoginReq) : Except Resp (User × Nat) :=
  if blank req.email || blank req.password then
    .error (400, "Email and password are required")
  else
    let email := normalizeEmail (req.email.getD "")
    match userByEmail db email with
    | none => .error (401, "Invalid email or password")
    | some u =>
      if !(checkPasswordHash u.password (req.password.getD "")) then
        .error (401, "Invalid email or password")
      else if u.status != "active" then
        .error (401, "Account is not active")
      else
        .ok (u, u.id)

/-- Replace the enrollment row matched by
`filter_by(id=enrollment_id, user_id=user_id)`; the primary key makes the
match unique, so mapping over the list mutates exactly the found row. -/
def updateEnrollmentRows (db : DB) (eid uid : Nat) (f : Enrollment → Enrollment) : DB :=
  { db with enrollments :=
      db.enrollments.map (fun e => if e.id == eid && e.user_id == uid then f e else e) }

/-- Body of `update_progress` on the found row
(src/app/routes/enrollments.py lines 51-60). -/
def progressUpdate (now : Nat) (p : Rat) (e : Enrollment) : Enrollment :=
  if p = 100 ∧ e.status ≠ "completed" then
    { e with progress := p, status := "completed", completion_date := some now }
  else if p < 100 ∧ e.status = "completed" then
    { e with progress := p, status := "active", completion_date := none }
  else
    { e with progress := p }

/-- PUT /api/enrollments/id/progress (src/app/routes/enrollments.py
lines 32-71).  `progress` is the JSON number, `data.get('progress', 0)`
defaulting to 0 when absent. -/
def update_progress (now : Nat) (db : DB) (uid eid : Nat) (progress : Option Rat) :
    Except Resp DB :=
  match findEnrollment db eid uid with
  | none => .error (404, "Enrollment not found")
  | some _ =>
    if ¬ (0 ≤ progress.getD 0 ∧ progress.getD 0 ≤ 100) then
      .error (400, "Progress must be a number between 0 and 100")
    else
      .ok (updateEnrollmentRows db eid uid (progressUpdate now (progress.getD 0)))

/-- POST /api/enrollments/id/complete (src/app/routes/enrollments.py
lines 73-102). -/
def complete_course (now : Nat) (db : DB) (uid eid : Nat) : Except Resp DB :=
  match findEnrollment db eid uid with
  | none => .error (404, "Enrollment not found")
  | some e =>
    if e.status = "completed" then .error (400, "Course is already completed")
    else
      .ok (updateEnrollmentRows db eid uid (fun e1 =>
        { e1 with status := "completed", progress := 100, completion_date := some now }))

/-- POST /api/enrollments/id/drop (src/app/routes/enrollments.py
lines 104-131).  Sets status only; progress is left untouched. -/
def drop_course (db : DB) (uid eid : Nat) : Except Resp DB :=
  match findEnrollment db eid uid with
  | none => .error (404, "Enrollment not found")
  | some e =>
    if e.status = "dropped" then .error (400, "Course is already dropped")
    else
      .ok (updateEnrollmentRows db eid uid (fun e1 => { e1 with status := "dropped" }))

/-- POST /api/enrollments/id/reactivate (src/app/routes/enrollments.py
lines 133-160).  Sets status only; progress is left untouched. -/
def reactivate_enrollment (db : DB) (uid eid : Nat) : Except Resp DB :=
  match findEnrollment db eid uid with
  | none => .error (404, "Enrollment not found")
  | some e =>
    if e.status ≠ "dropped" then
      .error (400, "Only dropped enrollments can be reactivated")
    else
      .ok (updateEnrollmentRows db eid uid (fun e1 => { e1 with status := "active" }))

/-- One element of the `items` list sent to POST /api/orders/. -/
structure ItemReq where
  type : Option String
  id : Option Nat
  quantity : Option Int
  deriving DecidableEq

/-- Validation and construction of one order line
(src/app/routes/orders.py lines 34-92).  Python truthiness: a missing
type, empty-string type, missing id or id 0 all fail the
`if not item_type or not item_id` guard. -/
def buildOrderItem (db : DB) (uid oid iid : Nat) (it : ItemReq) :
    Except Resp OrderItem :=
  if it.type.getD "" = "" ∨ it.id.getD 0 = 0 then
    .error (400, "Item type and ID are required")
  else if it.type.getD "" = "course" then
    match db.courses (it.id.getD 0) with
    | none => .error (404, "Course " ++ toString (it.id.getD 0) ++ " not found")
    | some course =>
      if course.status ≠ "active" then
        .error (400, "Course " ++ course.title ++ " is not available")
      else if (enrollmentFor db uid (it.id.getD 0)).isSome then
        .error (400, "Already enrolled in course " ++ course.title)
      else
        .ok { id := iid, order_id := oid, course_id := some (it.id.getD 0),
              product_id := none, quantity := 1, price := course.price,
              item_type := "course" }
  else if it.type.getD "" = "product" then
    match db.products (it.id.getD 0) with
    | none => .error (404, "Product " ++ toString (it.id.getD 0) ++ " not found")
    | some product =>
      if product.status ≠ "active" then
        .error (400, "Product " ++ product.name ++ " is not available")
      else if product.stock_quantity < it.quantity.getD 1 then
        .error (400, "Insufficient stock for " ++ product.name)
      else
        .ok { id := iid, order_id := oid, course_id := none,
              product_id := some (it.id.getD 0), quantity := it.quantity.getD 1,
              price := product.price * ((it.quantity.getD 1) : Rat),
              item_type := "product" }
  else
    .error (400, "Invalid item type. Must be \"course\" or \"product\"")

/-- The `for item_data in items` loop of `create_order`: the first failing
line aborts; the accumulated rows live only in the uncommitted session. -/
def buildOrderItems (db : DB) (uid oid : Nat) :
    Nat → List ItemReq → Except Resp (List OrderItem)
  | _, [] => .ok []
  | iid, it :: rest =>
    match buildOrderItem db uid oid iid it with
    | .error e => .error e
    | .ok row =>
      match buildOrderItems db uid oid (iid + 1) rest with
      | .error e => .error e
      | .ok rows => .ok (row :: rows)

/-- POST /api/orders/ (src/app/routes/orders.py lines 10-104).  The order
row is flushed (given id `next_order_id`) inside the session; only the
final `db.session.commit()` persists anything, so every error path leaves
the database untouched. -/
def create_order (db : DB) (uid : Nat) (pm? : Option String)
    (items : List ItemReq) : Except Resp DB :=
  if items.isEmpty then .error (400, "Order items are required")
  else
    match buildOrderItems db uid db.next_order_id db.next_item_id items with
    | .error e => .error e
    | .ok rows =>
      .ok { db with
            orders := db.orders ++
              [{ id := db.next_order_id, user_id := uid,
                 total_amount := (rows.map (fun r => r.price)).sum,
                 status := "pending", payment_method := some (pm?.getD "card"),
                 payment_status := "pending" }],
            order_items := db.order_items ++ rows,
            next_order_id := db.next_order_id + 1,
            next_item_id := db.next_item_id + rows.length }

/-- Does this order item decrement product `pid`
(`item.item_type == 'product'` and it references that product)? -/
def targets (it : OrderItem) (pid : Nat) : Bool :=
  it.item_type == "product" && it.product_id == some pid

/-- Stock decrement for one order item (src/app/routes/orders.py
lines 146-149): subtract the quantity, flip status when the result is
at or below zero. -/
def payProductOne (p : Product) (q : Int) : Product :=
  { p with stock_quantity := p.stock_quantity - q,
           status := if p.stock_quantity - q ≤ 0 then "out_of_stock" else p.status }

/-- Product-table effect of one order item during payment; a missing
product (`if product:`) is skipped. -/
def payProduct (prods : Nat → Option Product) (it : OrderItem) :
    Nat → Option Product :=
  match it.product_id with
  | none => prods
  | some pid =>
    match prods pid with
    | none => prods
    | some p =>
      fun q => if q = pid then some (payProductOne p it.quantity) else prods q

/-- Enrollment row created when paying for a course item
(src/app/routes/orders.py lines 137-140); model defaults progress 0,
status active. -/
def newEnrollment (eid uid cid : Nat) : Enrollment :=
  { id := eid, user_id := uid, course_id := cid, progress := 0,
    status := "active", completion_date := none }

/-- One iteration of the `for item in order.order_items` loop in
`pay_order` (src/app/routes/orders.py lines 134-149). -/
def payStep (uid : Nat) (db : DB) (it : OrderItem) : DB :=
  if it.item_type = "course" then
    { db with
      enrollments := db.enrollments ++
        [newEnrollment db.next_enrollment_id uid (it.course_id.getD 0)],
      next_enrollment_id := db.next_enrollment_id + 1 }
  else if it.item_type = "product" then
    { db with products := payProduct db.products it }
  else db

/-- The whole item loop of `pay_order`. -/
def processPayItems (uid : Nat) (items : List OrderItem) (db : DB) : DB :=
  items.foldl (payStep uid) db

/-- Does this enrollment list violate the `unique_user_course` constraint
(src/app/models.py line 195)?  `db.session.commit()` raises on violation,
rolling the whole payment back. -/
def hasDupEnrollment : List Enrollment → Bool
  | [] => false
  | e :: rest =>
    rest.any (fun x => x.user_id == e.user_id && x.course_id == e.course_id) ||
      hasDupEnrollment rest

/-- `payment_data.get('payment_method', order.payment_method)`. -/
def effPayMethod (pm? : Option String) (o : Order) : Option String :=
  match pm? with
  | some m => some m
  | none => o.payment_method

/-- POST /api/orders/id/pay (src/app/routes/orders.py lines 106-160). -/
def pay_order (db : DB) (uid oid : Nat) (pm? : Option String) :
    Except Resp DB :=
  match findOrder db oid uid with
  | none => .error (404, "Order not found")
  | some o =>
    if o.status ≠ "pending" then .error (400, "Order is not in pending status")
    else if blank (effPayMethod pm? o) then .error (400, "Payment method is required")
    else if hasDupEnrollment (processPayItems uid (orderItemsOf db oid) db).enrollments then
      .error (500, "UNIQUE constraint failed: enrollments.user_id, enrollments.course_id")
    else
      .ok { processPayItems uid (orderItemsOf db oid) db with
            orders := (processPayItems uid (orderItemsOf db oid) db).orders.map (fun o2 =>
              if o2.id = oid ∧ o2.user_id = uid then
                { o2 with status := "paid", payment_status := "completed",
                          payment_method := effPayMethod pm? o }
              else o2) }

/-- JSON payload of PUT /api/admin/products/id; `none` means the key is
absent from the request. -/
structure UpdateProductReq where
  name : Option String
  price : Option Rat
  category : Option String
  stock_quantity : Option Int
  status : Option String
  deriving DecidableEq

/-- PUT /api/admin/products/id (src/app/routes/admin.py lines 149-179):
each present field is written as sent; stock_quantity is not checked for
sign and status is never adjusted to match it. -/
def update_product (db : DB) (pid : Nat) (req : UpdateProductReq) :
    Except Resp DB :=
  match db.products pid with
  | none => .error (404, "Product not found")
  | some p =>
    let p1 : Product :=
      { p with
        name := req.name.getD p.name
        price := req.price.getD p.price
        category := (match req.category with | some c => some c | none => p.category)
        stock_quantity := req.stock_quantity.getD p.stock_quantity
        status := req.status.getD p.status }
    .ok { db with products := fun q => if q = pid then some p1 else db.products q }

/-- PUT /api/admin/orders/id/status (src/app/routes/admin.py
lines 316-345): writes the status field only. -/
def update_order_status (db : DB) (oid : Nat) (status? : Option String) :
    Except Resp DB :=
  match db.orders.find? (fun o => o.id == oid) with
  | none => .error (404, "Order not found")
  | some _ =>
    if status?.getD "" = "" then .error (400, "Status is required")
    else if ¬ (status?.getD "" = "pending" ∨ status?.getD "" = "paid" ∨
               status?.getD "" = "cancelled" ∨ status?.getD "" = "refunded") then
      .error (400, "Invalid status")
    else
      .ok { db with orders :=
              db.orders.map (fun o =>
                if o.id = oid then { o with status := status?.getD "" } else o) }

/-- Page size computed by `get_courses` (src/app/routes/courses.py line 15)
and `get_products` (src/app/routes/products.py line 14):
`min(request.args.get('per_page', 10, type=int), 100)` — an upper bound
only; no lower clamp exists in the handlers. -/
def effectivePerPage (requested : Option Int) : Int :=
  min (requested.getD 10) 100

/-- Total quantity the order's items demand of product `pid`. -/
def payDemand : List OrderItem → Nat → Int
  | [], _ => 0
  | it :: rest, pid =>
    (if targets it pid then it.quantity else 0) + payDemand rest pid

/-- Does any item of the order decrement product `pid`? -/
def payTouches (items : List OrderItem) (pid : Nat) : Bool :=
  items.any (fun it => targets it pid)

/-- Effect of a single order item on the row of product `pid`. -/
def stepP (it : OrderItem) (pid : Nat) (p : Product) : Product :=
  if targets it pid then payProductOne p it.quantity else p

/-- Per-product view of the payment loop: the successive decrements a
single product row undergoes. -/
def applyPayItems : List OrderItem → Nat → Product → Product
  | [], _, p => p
  | it :: rest, pid, p => applyPayItems rest pid (stepP it pid p)

/-- An empty database, the clean initial state. -/
def emptyDB : DB :=
  { users := [], courses := fun _ => none, products := fun _ => none,
    orders := [], order_items := [], enrollments := [],
    next_order_id := 1, next_item_id := 1, next_enrollment_id := 1,
    next_user_id := 1 }

/-! Concrete fixtures used by witnesses and counterexamples. -/

/-- A product row with 5 items in stock. -/
def prodW : Product :=
  { id := 1, name := "Widget", price := 5, category := none,
    stock_quantity := 5, status := "active" }

/-- A product row with 2 items in stock. -/
def prodTwo : Product :=
  { id := 1, name := "Widget", price := 5, category := none,
    stock_quantity := 2, status := "active" }

/-- An active course row. -/
def courseW : Course :=
  { id := 2, title := "Lean", price := 100, level := none, category := none,
    status := "active" }

/-- A completed enrollment at progress 100. -/
def enrCompleted : Enrollment :=
  { id := 1, user_id := 7, course_id := 3, progress := 100,
    status := "completed", completion_date := some 5 }

/-- An active enrollment at progress 20. -/
def enrActive : Enrollment :=
  { id := 1, user_id := 7, course_id := 3, progress := 20,
    status := "active", completion_date := none }

/-- State holding one completed enrollment. -/
def dbEnrCompleted : DB := { emptyDB with enrollments := [enrCompleted] }

/-- State holding one active enrollment. -/
def dbEnrActive : DB := { emptyDB with enrollments := [enrActive] }

/-- State holding one product. -/
def dbProd : DB :=
  { emptyDB with products := fun q => if q = 1 then some prodW else none }

/-- Admin payload writing a negative stock. -/
def reqStockNeg : UpdateProductReq :=
  { name := none, price := none, category := none,
    stock_quantity := some (-3), status := none }

/-- Admin payload writing stock zero. -/
def reqStockZero : UpdateProductReq :=
  { name := none, price := none, category := none,
    stock_quantity := some 0, status := none }

/-- A pending order of user 9. -/
def pendOrder : Order :=
  { id := 1, user_id := 9, total_amount := 10, status := "pending",
    payment_method := some "card", payment_status := "pending" }

/-- A product line of order 1: 2 units of product 1. -/
def prodItem : OrderItem :=
  { id := 1, order_id := 1, course_id := none, product_id := some 1,
    quantity := 2, price := 10, item_type := "product" }

/-- A course line of order 1: course 2. -/
def courseItem : OrderItem :=
  { id := 2, order_id := 1, course_id := some 2, product_id := none,
    quantity := 1, price := 100, item_type := "course" }

/-- State with a pending product order fully covered by stock. -/
def dbPayStock : DB :=
  { emptyDB with
    products := fun q => if q = 1 then some prodTwo else none,
    orders := [pendOrder], order_items := [prodItem],
    next_order_id := 2, next_item_id := 2 }

/-- State with a pending order holding a course line and a product line. -/
def dbPayFull : DB :=
  { emptyDB with
    courses := fun q => if q = 2 then some courseW else none,
    products := fun q => if q = 1 then some prodTwo else none,
    orders := [{ pendOrder with total_amount := 110 }],
    order_items := [prodItem, courseItem],
    next_order_id := 2, next_item_id := 3 }

/-- State with a catalog (one course, one product) and no orders yet. -/
def dbCatalog : DB :=
  { emptyDB with
    courses := fun q => if q = 2 then some courseW else none,
    products := fun q => if q = 1 then some prodW else none }

/-- A registered user with a hashed password. -/
def userA : User :=
  { id := 1, email := "a@b.c", password := generatePasswordHash "s1" "right1",
    full_name := "Alice", phone := none, address := none, role := "student",
    status := "active" }

/-- State holding one registered user. -/
def dbLogin : DB := { emptyDB with users := [userA] }

/-- A registration payload for a fixed email and name. -/
def reqReg (pw : String) (role : Option String) : RegisterReq :=
  { email := some "a@b.c", password := some pw, full_name := some "Al",
    phone := none, address := none, role := role }

/-- State with an order plus surrounding rows, for frame checks. -/
def dbOrders : DB :=
  { emptyDB with
    orders := [pendOrder],
    order_items := [prodItem],
    products := fun q => if q = 1 then some prodTwo else none,
    enrollments := [enrActive] }

/-- Characterization of an order line produced by `create_order`'s loop:
a course line carries the course's price at quantity 1, a product line
carries unit price times quantity. -/
def itemRowSpec (db : DB) (row : OrderItem) : Prop :=
  (row.item_type = "course" ∧ ∃ cid c, row.course_id = some cid ∧
     db.courses cid = some c ∧ row.price = c.price ∧ row.quantity = 1) ∨
  (row.item_type = "product" ∧ ∃ pid p, row.product_id = some pid ∧
     db.products pid = some p ∧ row.price = p.price * (row.quantity : Rat))

/-! Theorems. -/

/-- C6 (counterexample): the claim says a requested per_page of 0 is
raised to 1; the handlers compute `min(0, 100) = 0`, so the effective
page size for a requested 0 is 0, not 1. -/
theorem per_page_zero_not_raised_to_one :
    effectivePerPage (some 0) = 0 ∧ effectivePerPage (some 0) ≠ 1 := by
  decide

/-- C6 (amended): the effective page size defaults to 10 when absent and
is `min(requested, 100)`; for a positive request this lies in [1,100],
but a requested value ≤ 0 is passed through unclamped. -/
theorem effective_per_page_spec :
    effectivePerPage none = 10 ∧
    (∀ r : Int, 1 ≤ r →
      effectivePerPage (some r) = min r 100 ∧
      1 ≤ effectivePerPage (some r) ∧ effectivePerPage (some r) ≤ 100) ∧
    (∀ r : Int, r ≤ 0 → effectivePerPage (some r) = r) := by
  refine ⟨rfl, ?_, ?_⟩
  · intro r hr
    refine ⟨rfl, le_min hr (by norm_num), min_le_right _ _⟩
  · intro r hr
    exact min_eq_left (le_trans hr (by norm_num))

/-- C6 (witness): the amended statement instantiated at a request of 250. -/
theorem effective_per_page_spec_witness :
    effectivePerPage (some 250) = min 250 100 ∧
    1 ≤ effectivePerPage (some 250) ∧ effectivePerPage (some 250) ≤ 100 :=
  effective_per_page_spec.2.1 250 (by norm_num)

/-- C3: `create_order` is all-or-nothing — whenever it returns an error,
the persisted database is exactly the pre-state: no Order row, no
OrderItem rows and no total_amount change are committed.  (Every early
return in the handler happens before `db.session.commit()`, and the
uncommitted session is discarded.) -/
theorem create_order_all_or_nothing (db : DB) (uid : Nat) (pm? : Option String)
    (items : List ItemReq)
    (herr : isErr (create_order db uid pm? items) = true) :
    applyWrite db (create_order db uid pm? items) = db ∧
    (applyWrite db (create_order db uid pm? items)).orders = db.orders ∧
    (applyWrite db (create_order db uid pm? items)).order_items = db.order_items := by
  cases h : create_order db uid pm? items with
  | error e => exact ⟨rfl, rfl, rfl⟩
  | ok db2 => rw [h] at herr; simp [isErr] at herr

/-- C3 (witness): ordering a nonexistent course fails and persists nothing. -/
theorem create_order_all_or_nothing_witness :
    applyWrite emptyDB (create_order emptyDB 1 none
      [{ type := some "course", id := some 9, quantity := none }]) = emptyDB :=
  (create_order_all_or_nothing emptyDB 1 none
    [{ type := some "course", id := some 9, quantity := none }] (by decide)).1

/-- C9: the role of a user created by a successful `register` is the
payload's `role` value when present and "student" otherwise; nothing
restricts the value, so an unauthenticated request can create an admin. -/
theorem register_role_from_payload (salt : String) (db : DB) (req : RegisterReq)
    (u : User) (hu : registeredUser salt db req = some u) :
    u.role = req.role.getD "student" := by
  unfold registeredUser register at hu
  split_ifs at hu
  all_goals simp_all
  exact hu ▸ rfl

/-- C9 (witness): a request with payload role "admin" creates an admin user. -/
theorem register_role_from_payload_witness :
    ∃ u, registeredUser "s0" emptyDB (reqReg "secret1" (some "admin")) = some u ∧
      u.role = "admin" := by
  refine ⟨{ id := 1, email := "a@b.c",
            password := generatePasswordHash "s0" "secret1", full_name := "Al",
            phone := none, address := none, role := "admin",
            status := "active" }, by decide, ?_⟩
  exact register_role_from_payload "s0" emptyDB (reqReg "secret1" (some "admin")) _
    (by decide)

/-- C8: two-run indistinguishability of login failures — a login against
a database without the email and a login with a registered email but a
password failing the hash check return the identical response
(status 401, body error "Invalid email or password"). -/
theorem login_failure_indistinguishable
    (db1 db2 : DB) (r1 r2 : LoginReq)
    (h1e : blank r1.email = false) (h1p : blank r1.password = false)
    (h2e : blank r2.email = false) (h2p : blank r2.password = false)
    (hno : userByEmail db1 (normalizeEmail (r1.email.getD "")) = none)
    (u : User)
    (hu : userByEmail db2 (normalizeEmail (r2.email.getD "")) = some u)
    (hpw : checkPasswordHash u.password (r2.password.getD "") = false) :
    login db1 r1 = .error (401, "Invalid email or password") ∧
    login db2 r2 = login db1 r1 := by
  have e1 : login db1 r1 = .error (401, "Invalid email or password") := by
    unfold login
    rw [h1e, h1p]
    simp only [Bool.or_self, Bool.false_eq_true, if_false]
    rw [hno]
  have e2 : login db2 r2 = .error (401, "Invalid email or password") := by
    unfold login
    rw [h2e, h2p]
    simp only [Bool.or_self, Bool.false_eq_true, if_false]
    rw [hu]
    simp [hpw]
  exact ⟨e1, by rw [e1, e2]⟩

/-- C8 (witness): an unknown email against an empty user table and a
wrong password against a registered user produce the same 401 response. -/
theorem login_failure_indistinguishable_witness :
    login emptyDB { email := some "zz@b.c", password := some "wrong1" } =
      .error (401, "Invalid email or password") ∧
    login dbLogin { email := some "a@b.c", password := some "wrong1" } =
      login emptyDB { email := some "zz@b.c", password := some "wrong1" } :=
  login_failure_indistinguishable emptyDB dbLogin
    { email := some "zz@b.c", password := some "wrong1" }
    { email := some "a@b.c", password := some "wrong1" }
    (by decide) (by decide) (by decide) (by decide) (by decide)
    userA (by decide) (by decide)

/-- Reduction of `update_progress` once the enrollment lookup succeeds. -/
theorem update_progress_eq (now : Nat) (db : DB) (uid eid : Nat) (p? : Option Rat)
    (e0 : Enrollment) (hfind : findEnrollment db eid uid = some e0) :
    update_progress now db uid eid p? =
      if ¬ (0 ≤ p?.getD 0 ∧ p?.getD 0 ≤ 100) then
        .error (400, "Progress must be a number between 0 and 100")
      else
        .ok (updateEnrollmentRows db eid uid (progressUpdate now (p?.getD 0))) := by
  unfold update_progress
  rw [hfind]

/-- Reduction of `complete_course` once the enrollment lookup succeeds. -/
theorem complete_course_eq (now : Nat) (db : DB) (uid eid : Nat)
    (e0 : Enrollment) (hfind : findEnrollment db eid uid = some e0) :
    complete_course now db uid eid =
      if e0.status = "completed" then .error (400, "Course is already completed")
      else
        .ok (updateEnrollmentRows db eid uid (fun e1 =>
          { e1 with status := "completed", progress := 100,
                    completion_date := some now })) := by
  unfold complete_course
  rw [hfind]

/-- After `progressUpdate` with a progress value at most 100, progress is
100 exactly when the status is "completed". -/
theorem progressUpdate_equiv (now : Nat) (p : Rat) (hp : p ≤ 100) (e : Enrollment) :
    ((progressUpdate now p e).progress = 100 ↔
      (progressUpdate now p e).status = "completed") := by
  unfold progressUpdate
  split_ifs with h1 h2
  · simp [h1.1]
  · simp only
    constructor
    · intro hc
      exact absurd hc (ne_of_lt h2.1)
    · intro hc
      simp at hc
  · simp only
    constructor
    · intro hpp
      push_neg at h1
      exact h1 hpp
    · intro hc
      by_contra hpp
      exact h2 ⟨lt_of_le_of_ne hp hpp, hc⟩

/-- C1 (amended): immediately after a successful `update_progress` or
`complete_course`, `progress == 100 ⇔ status == 'completed'` holds for the
touched enrollment.  (The claim's other two endpoints, `drop_course` and
`reactivate_enrollment`, do not restore the equivalence — see the
counterexample.) -/
theorem progress_completed_equiv_after_update_or_complete
    (now : Nat) (db : DB) (uid eid : Nat) (p? : Option Rat) :
    (isErr (update_progress now db uid eid p?) = false →
      ∀ e ∈ (applyWrite db (update_progress now db uid eid p?)).enrollments,
        e.id = eid → e.user_id = uid →
        (e.progress = 100 ↔ e.status = "completed")) ∧
    (isErr (complete_course now db uid eid) = false →
      ∀ e ∈ (applyWrite db (complete_course now db uid eid)).enrollments,
        e.id = eid → e.user_id = uid →
        (e.progress = 100 ↔ e.status = "completed")) := by
  constructor
  · intro hok e he hid huid
    cases hfind : findEnrollment db eid uid with
    | none =>
      unfold update_progress at hok
      rw [hfind] at hok
      simp [isErr] at hok
    | some e0 =>
      rw [update_progress_eq now db uid eid p? e0 hfind] at hok he
      by_cases hval : 0 ≤ p?.getD 0 ∧ p?.getD 0 ≤ 100
      · rw [if_neg (not_not_intro hval)] at he
        simp only [applyWrite, updateEnrollmentRows] at he
        rw [List.mem_map] at he
        obtain ⟨e1, _, heq⟩ := he
        by_cases hcond : (e1.id == eid && e1.user_id == uid) = true
        · rw [if_pos hcond] at heq
          subst heq
          exact progressUpdate_equiv now (p?.getD 0) hval.2 e1
        · rw [if_neg hcond] at heq
          subst heq
          simp [hid, huid] at hcond
      · rw [if_pos hval] at hok
        simp [isErr] at hok
  · intro hok e he hid huid
    cases hfind : findEnrollment db eid uid with
    | none =>
      unfold complete_course at hok
      rw [hfind] at hok
      simp [isErr] at hok
    | some e0 =>
      rw [complete_course_eq now db uid eid e0 hfind] at hok he
      by_cases hdone : e0.status = "completed"
      · rw [if_pos hdone] at hok
        simp [isErr] at hok
      · rw [if_neg hdone] at he
        simp only [applyWrite, updateEnrollmentRows] at he
        rw [List.mem_map] at he
        obtain ⟨e1, _, heq⟩ := he
        by_cases hcond : (e1.id == eid && e1.user_id == uid) = true
        · rw [if_pos hcond] at heq
          subst heq
          simp
        · rw [if_neg hcond] at heq
          subst heq
          simp [hid, huid] at hcond

/-- C1 (counterexample): dropping a completed enrollment succeeds and
leaves progress at 100 while the status becomes "dropped", so the claimed
equivalence fails right after a successful `drop_course`. -/
theorem drop_course_breaks_progress_completed_equiv :
    isErr (drop_course dbEnrCompleted 7 1) = false ∧
    ∃ e ∈ (applyWrite dbEnrCompleted (drop_course dbEnrCompleted 7 1)).enrollments,
      e.progress = 100 ∧ e.status ≠ "completed" := by
  decide

/-- C1 (witness): the amended statement instantiated — completing an
active enrollment yields a row satisfying the equivalence. -/
theorem progress_completed_equiv_witness :
    ({ id := 1, user_id := 7, course_id := 3, progress := 100,
       status := "completed", completion_date := some 42 } : Enrollment).progress = 100 ↔
    ({ id := 1, user_id := 7, course_id := 3, progress := 100,
       status := "completed", completion_date := some 42 } : Enrollment).status =
      "completed" :=
  (progress_completed_equiv_after_update_or_complete 42 dbEnrActive 7 1 none).2
    (by decide) _ (by decide) rfl rfl

/-- C10: a successful admin `update_order_status` with a valid status
changes only the order's status field — enrollments, products, courses,
order items and users are untouched, and every order keeps its id,
user, total_amount, payment_status and payment_method (non-matching
orders keep their status too), even when the new status is "paid". -/
theorem update_order_status_frame (db : DB) (oid : Nat) (ns : String)
    (hns : ns = "pending" ∨ ns = "paid" ∨ ns = "cancelled" ∨ ns = "refunded")
    (hok : isErr (update_order_status db oid (some ns)) = false) :
    ((applyWrite db (update_order_status db oid (some ns))).enrollments =
        db.enrollments ∧
     (applyWrite db (update_order_status db oid (some ns))).products = db.products ∧
     (applyWrite db (update_order_status db oid (some ns))).courses = db.courses ∧
     (applyWrite db (update_order_status db oid (some ns))).order_items =
        db.order_items ∧
     (applyWrite db (update_order_status db oid (some ns))).users = db.users) ∧
    ∀ o2 ∈ (applyWrite db (update_order_status db oid (some ns))).orders,
      ∃ o1 ∈ db.orders, o2.id = o1.id ∧ o2.user_id = o1.user_id ∧
        o2.total_amount = o1.total_amount ∧
        o2.payment_status = o1.payment_status ∧
        o2.payment_method = o1.payment_method ∧
        (o2.id = oid → o2.status = ns) ∧ (o2.id ≠ oid → o2.status = o1.status) := by
  have hne : ¬ ((some ns).getD "" = "") := by
    rcases hns with h | h | h | h <;> simp [h]
  have hvalid : ¬ ¬ ((some ns).getD "" = "pending" ∨ (some ns).getD "" = "paid" ∨
      (some ns).getD "" = "cancelled" ∨ (some ns).getD "" = "refunded") := by
    simpa using not_not_intro hns
  cases hfind : db.orders.find? (fun o => o.id == oid) with
  | none =>
    unfold update_order_status at hok
    rw [hfind] at hok
    simp [isErr] at hok
  | some o0 =>
    have hred : update_order_status db oid (some ns) =
        .ok { db with orders := db.orders.map (fun o =>
                if o.id = oid then { o with status := (some ns).getD "" } else o) } := by
      unfold update_order_status
      rw [hfind]
      rw [if_neg hne, if_neg hvalid]
    rw [hred]
    refine ⟨⟨rfl, rfl, rfl, rfl, rfl⟩, ?_⟩
    intro o2 h2
    simp only [applyWrite] at h2
    rw [List.mem_map] at h2
    obtain ⟨o1, h1, heq⟩ := h2
    refine ⟨o1, h1, ?_⟩
    by_cases hid : o1.id = oid
    · rw [if_pos hid] at heq
      subst heq
      exact ⟨rfl, rfl, rfl, rfl, rfl, fun _ => rfl, fun hne2 => absurd hid hne2⟩
    · rw [if_neg hid] at heq
      subst heq
      exact ⟨rfl, rfl, rfl, rfl, rfl, fun heq2 => absurd heq2 hid, fun _ => rfl⟩

/-- C10 (witness): overriding the concrete pending order to "paid"
leaves enrollments, products and order items untouched. -/
theorem update_order_status_frame_witness :
    (applyWrite dbOrders (update_order_status dbOrders 1 (some "paid"))).enrollments =
      dbOrders.enrollments ∧
    (applyWrite dbOrders (update_order_status dbOrders 1 (some "paid"))).products =
      dbOrders.products ∧
    (applyWrite dbOrders (update_order_status dbOrders 1 (some "paid"))).courses =
      dbOrders.courses ∧
    (applyWrite dbOrders (update_order_status dbOrders 1 (some "paid"))).order_items =
      dbOrders.order_items ∧
    (applyWrite dbOrders (update_order_status dbOrders 1 (some "paid"))).users =
      dbOrders.users :=
  (update_order_status_frame dbOrders 1 "paid" (by simp) (by decide)).1

/-- Unfolding the payment loop one item at a time. -/
theorem processPayItems_cons (uid : Nat) (it : OrderItem) (rest : List OrderItem)
    (db : DB) :
    processPayItems uid (it :: rest) db = processPayItems uid rest (payStep uid db it) :=
  rfl

/-- Unfolding `payTouches` one item at a time. -/
theorem payTouches_cons (it : OrderItem) (rest : List OrderItem) (pid : Nat) :
    payTouches (it :: rest) pid = (targets it pid || payTouches rest pid) :=
  rfl

/-- Projection of the single-item stock decrement. -/
theorem payProductOne_stock (p : Product) (q : Int) :
    (payProductOne p q).stock_quantity = p.stock_quantity - q :=
  rfl

/-- Projection of the single-item status flip. -/
theorem payProductOne_status (p : Product) (q : Int) :
    (payProductOne p q).status =
      if p.stock_quantity - q ≤ 0 then "out_of_stock" else p.status :=
  rfl

/-- One payment step acts on the row of product `pid` exactly as `stepP`. -/
theorem payStep_products (uid : Nat) (db : DB) (it : OrderItem) (pid : Nat) :
    (payStep uid db it).products pid = Option.map (stepP it pid) (db.products pid) := by
  unfold payStep
  by_cases hc : it.item_type = "course"
  · rw [if_pos hc]
    have htg : targets it pid = false := by simp [targets, hc]
    cases hmine : db.products pid <;> simp [stepP, htg, hmine]
  · rw [if_neg hc]
    by_cases hp : it.item_type = "product"
    · rw [if_pos hp]
      show payProduct db.products it pid = _
      unfold payProduct
      cases hpid : it.product_id with
      | none =>
        have htg : targets it pid = false := by simp [targets, hpid]
        cases hmine : db.products pid <;> simp [stepP, htg, hmine]
      | some pid2 =>
        by_cases heq : pid2 = pid
        · subst heq
          have htg : targets it pid2 = true := by simp [targets, hp, hpid]
          cases hprod : db.products pid2 with
          | none => simp [hprod]
          | some p => simp [hprod, stepP, htg]
        · have htg : targets it pid = false := by simp [targets, hpid, heq]
          cases hprod : db.products pid2 with
          | none =>
            cases hmine : db.products pid <;> simp [hprod, hmine, stepP, htg]
          | some p =>
            cases hmine : db.products pid <;>
              simp [hprod, hmine, stepP, htg, Ne.symm heq]
    · rw [if_neg hp]
      have htg : targets it pid = false := by simp [targets, hp]
      cases hmine : db.products pid <;> simp [stepP, htg, hmine]

/-- The payment loop acts on each product row independently, as the
per-product fold `applyPayItems`. -/
theorem processPayItems_products (uid : Nat) (items : List OrderItem) (db : DB)
    (pid : Nat) :
    (processPayItems uid items db).products pid =
      Option.map (applyPayItems items pid) (db.products pid) := by
  induction items generalizing db with
  | nil =>
    cases hmine : db.products pid <;> simp [processPayItems, applyPayItems, hmine]
  | cons it rest ih =>
    rw [processPayItems_cons, ih (payStep uid db it), payStep_products]
    cases hmine : db.products pid <;> simp [applyPayItems, hmine]

/-- The stock after the payment loop is the old stock minus the total
demanded quantity. -/
theorem applyPayItems_stock (items : List OrderItem) (pid : Nat) (p : Product) :
    (applyPayItems items pid p).stock_quantity =
      p.stock_quantity - payDemand items pid := by
  induction items generalizing p with
  | nil => simp [applyPayItems, payDemand]
  | cons it rest ih =>
    simp only [applyPayItems, payDemand]
    rw [ih]
    unfold stepP
    split_ifs with h
    · rw [payProductOne_stock]
      omega
    · omega

/-- A product no item of the order touches is unchanged by the loop. -/
theorem payTouches_false_fix (items : List OrderItem) (pid : Nat) (p : Product)
    (h : payTouches items pid = false) : applyPayItems items pid p = p := by
  induction items generalizing p with
  | nil => rfl
  | cons it rest ih =>
    rw [payTouches_cons] at h
    cases htg : targets it pid
    · rw [htg, Bool.false_or] at h
      simp only [applyPayItems, stepP, htg, Bool.false_eq_true, if_false]
      exact ih p h
    · rw [htg, Bool.true_or] at h
      exact absurd h (by simp)

/-- If some item touched the product and the loop left its stock at or
below zero, its status was flipped to out_of_stock. -/
theorem applyPayItems_flip (items : List OrderItem) (pid : Nat) (p : Product)
    (ht : payTouches items pid = true)
    (hs : (applyPayItems items pid p).stock_quantity ≤ 0) :
    (applyPayItems items pid p).status = "out_of_stock" := by
  induction items generalizing p with
  | nil => simp [payTouches] at ht
  | cons it rest ih =>
    by_cases hr : payTouches rest pid = true
    · exact ih (stepP it pid p) hr hs
    · have hr2 : payTouches rest pid = false := by
        cases hx : payTouches rest pid
        · rfl
        · exact absurd hx hr
      have htg : targets it pid = true := by
        rw [payTouches_cons, hr2, Bool.or_false] at ht
        exact ht
      have hfix : applyPayItems (it :: rest) pid p = stepP it pid p := by
        show applyPayItems rest pid (stepP it pid p) = stepP it pid p
        exact payTouches_false_fix rest pid _ hr2
      rw [hfix] at hs ⊢
      unfold stepP at hs ⊢
      rw [if_pos htg] at hs ⊢
      rw [payProductOne_stock] at hs
      rw [payProductOne_status, if_pos hs]

/-- Reduction of `pay_order` once the order lookup succeeds. -/
theorem pay_order_eq (db : DB) (uid oid : Nat) (pm? : Option String) (o : Order)
    (hfind : findOrder db oid uid = some o) :
    pay_order db uid oid pm? =
      (if o.status ≠ "pending" then .error (400, "Order is not in pending status")
       else if blank (effPayMethod pm? o) then
         .error (400, "Payment method is required")
       else if hasDupEnrollment
           (processPayItems uid (orderItemsOf db oid) db).enrollments then
         .error (500, "UNIQUE constraint failed: enrollments.user_id, enrollments.course_id")
       else
         .ok { processPayItems uid (orderItemsOf db oid) db with
               orders := (processPayItems uid (orderItemsOf db oid) db).orders.map
                 (fun o2 =>
                   if o2.id = oid ∧ o2.user_id = uid then
                     { o2 with status := "paid", payment_status := "completed",
                               payment_method := effPayMethod pm? o }
                   else o2) }) := by
  unfold pay_order
  rw [hfind]

/-- C2 (amended): `pay_order` preserves the stock invariant — if before
payment every product satisfies `stock_quantity ≥ 0` and
`stock_quantity = 0 → status = out_of_stock`, and every product's stock
covers the total quantity its order items demand, then every product
satisfies the invariant afterwards too (create_order never writes stock).
The unconditional claim fails: `pay_order` does not re-check stock at
payment time and admin `update_product` writes any stock value without
touching status — see the counterexample. -/
theorem pay_order_preserves_stock_invariant
    (db : DB) (uid oid : Nat) (pm? : Option String)
    (hpre : ∀ pid p, db.products pid = some p →
      0 ≤ p.stock_quantity ∧ (p.stock_quantity = 0 → p.status = "out_of_stock"))
    (hcov : ∀ pid p, db.products pid = some p →
      payDemand (orderItemsOf db oid) pid ≤ p.stock_quantity) :
    ∀ pid p2, (applyWrite db (pay_order db uid oid pm?)).products pid = some p2 →
      0 ≤ p2.stock_quantity ∧ (p2.stock_quantity = 0 → p2.status = "out_of_stock") := by
  intro pid p2 h2
  cases hres : pay_order db uid oid pm? with
  | error e =>
    rw [hres] at h2
    exact hpre pid p2 h2
  | ok db2 =>
    rw [hres] at h2
    cases hfind : findOrder db oid uid with
    | none =>
      unfold pay_order at hres
      rw [hfind] at hres
      simp at hres
    | some o =>
      rw [pay_order_eq db uid oid pm? o hfind] at hres
      by_cases h1 : o.status ≠ "pending"
      · rw [if_pos h1] at hres
        simp at hres
      · rw [if_neg h1] at hres
        by_cases hb : blank (effPayMethod pm? o) = true
        · rw [if_pos hb] at hres
          simp at hres
        · rw [if_neg hb] at hres
          by_cases hd : hasDupEnrollment
              (processPayItems uid (orderItemsOf db oid) db).enrollments = true
          · rw [if_pos hd] at hres
            simp at hres
          · rw [if_neg hd] at hres
            injection hres with hdb2
            subst hdb2
            have h3 : (processPayItems uid (orderItemsOf db oid) db).products pid =
                some p2 := h2
            rw [processPayItems_products] at h3
            cases hp : db.products pid with
            | none =>
              rw [hp] at h3
              simp at h3
            | some p =>
              rw [hp] at h3
              have hps : applyPayItems (orderItemsOf db oid) pid p = p2 := by
                simpa using h3
              constructor
              · rw [← hps, applyPayItems_stock]
                have := hcov pid p hp
                omega
              · intro h0
                by_cases htch : payTouches (orderItemsOf db oid) pid = true
                · have hs0 : (applyPayItems (orderItemsOf db oid) pid p).stock_quantity
                      ≤ 0 := by
                    rw [hps, h0]
                  rw [← hps]
                  exact applyPayItems_flip _ _ _ htch hs0
                · have htch2 : payTouches (orderItemsOf db oid) pid = false := by
                    cases hx : payTouches (orderItemsOf db oid) pid
                    · rfl
                    · exact absurd hx htch
                  have hfix := payTouches_false_fix (orderItemsOf db oid) pid p htch2
                  have hpp : p = p2 := by
                    rw [← hps, hfix]
                  rw [← hpp]
                  exact (hpre pid p hp).2 (by rw [hpp]; exact h0)

/-- C2 (counterexample): admin `update_product` writes the requested
stock as-is — stock becomes −3 with status still "active", so stock can
go negative; likewise writing 0 leaves the status "active" instead of
"out_of_stock". -/
theorem update_product_breaks_stock_invariant :
    isErr (update_product dbProd 1 reqStockNeg) = false ∧
    ((applyWrite dbProd (update_product dbProd 1 reqStockNeg)).products 1).map
        (fun p => (p.stock_quantity, p.status)) = some (-3, "active") ∧
    isErr (update_product dbProd 1 reqStockZero) = false ∧
    ((applyWrite dbProd (update_product dbProd 1 reqStockZero)).products 1).map
        (fun p => (p.stock_quantity, p.status)) = some (0, "active") ∧
    ("active" : String) ≠ "out_of_stock" := by
  refine ⟨rfl, by decide, rfl, by decide, by decide⟩

/-- C2 (witness): paying the concrete covered order keeps the invariant
for the touched product. -/
theorem pay_order_stock_invariant_witness :
    0 ≤ ({ id := 1, name := "Widget", price := 5, category := none,
           stock_quantity := 0, status := "out_of_stock" } : Product).stock_quantity ∧
    (({ id := 1, name := "Widget", price := 5, category := none,
        stock_quantity := 0, status := "out_of_stock" } : Product).stock_quantity = 0 →
      ({ id := 1, name := "Widget", price := 5, category := none,
         stock_quantity := 0, status := "out_of_stock" } : Product).status =
        "out_of_stock") := by
  refine pay_order_preserves_stock_invariant dbPayStock 9 1 (some "card") ?_ ?_ 1 _ ?_
  · intro pid p hp
    by_cases h : pid = 1
    · subst h
      have : some prodTwo = some p := hp
      cases this
      decide
    · exact absurd hp (by simp [dbPayStock, emptyDB, h])
  · intro pid p hp
    by_cases h : pid = 1
    · subst h
      have : some prodTwo = some p := hp
      cases this
      decide
    · exact absurd hp (by simp [dbPayStock, emptyDB, h])
  · decide

/-- The payment loop appends one fresh active enrollment per course item
and touches no existing enrollment row. -/
theorem processPayItems_enrollments (uid : Nat) (items : List OrderItem) (db : DB) :
    ∃ news : List Enrollment,
      (processPayItems uid items db).enrollments = db.enrollments ++ news ∧
      news.length = (items.filter (fun it => it.item_type == "course")).length ∧
      ∀ it ∈ items, it.item_type = "course" →
        ∃ e ∈ news, e.user_id = uid ∧ e.course_id = it.course_id.getD 0 ∧
          e.status = "active" ∧ e.progress = 0 := by
  induction items generalizing db with
  | nil => exact ⟨[], by simp [processPayItems], by simp, by simp⟩
  | cons it rest ih =>
    rw [processPayItems_cons]
    obtain ⟨news, hnews, hlen, hmem⟩ := ih (payStep uid db it)
    by_cases hc : it.item_type = "course"
    · refine ⟨newEnrollment db.next_enrollment_id uid (it.course_id.getD 0) :: news,
        ?_, ?_, ?_⟩
      · have hstep : (payStep uid db it).enrollments = db.enrollments ++
            [newEnrollment db.next_enrollment_id uid (it.course_id.getD 0)] := by
          unfold payStep
          rw [if_pos hc]
        rw [hnews, hstep, List.append_assoc]
        simp
      · simp [hlen, hc]
      · intro it2 h2 hc2
        rcases List.mem_cons.mp h2 with h2 | h2
        · subst h2
          exact ⟨_, List.mem_cons_self _ _, rfl, rfl, rfl, rfl⟩
        · obtain ⟨e, he, hprops⟩ := hmem it2 h2 hc2
          exact ⟨e, List.mem_cons_of_mem _ he, hprops⟩
    · have hstep : (payStep uid db it).enrollments = db.enrollments := by
        unfold payStep
        rw [if_neg hc]
        split_ifs <;> rfl
      refine ⟨news, by rw [hnews, hstep], ?_, ?_⟩
      · rw [hlen]
        simp [hc]
      · intro it2 h2 hc2
        rcases List.mem_cons.mp h2 with h2 | h2
        · subst h2
          exact absurd hc2 hc
        · exact hmem it2 h2 hc2

/-- The payment loop writes only products and enrollments: orders, order
items, users and courses are untouched. -/
theorem processPayItems_frame (uid : Nat) (items : List OrderItem) (db : DB) :
    (processPayItems uid items db).orders = db.orders ∧
    (processPayItems uid items db).order_items = db.order_items ∧
    (processPayItems uid items db).users = db.users ∧
    (processPayItems uid items db).courses = db.courses := by
  induction items generalizing db with
  | nil => exact ⟨rfl, rfl, rfl, rfl⟩
  | cons it rest ih =>
    rw [processPayItems_cons]
    obtain ⟨h1, h2, h3, h4⟩ := ih (payStep uid db it)
    have hs1 : (payStep uid db it).orders = db.orders := by
      unfold payStep
      split_ifs <;> rfl
    have hs2 : (payStep uid db it).order_items = db.order_items := by
      unfold payStep
      split_ifs <;> rfl
    have hs3 : (payStep uid db it).users = db.users := by
      unfold payStep
      split_ifs <;> rfl
    have hs4 : (payStep uid db it).courses = db.courses := by
      unfold payStep
      split_ifs <;> rfl
    exact ⟨by rw [h1, hs1], by rw [h2, hs2], by rw [h3, hs3], by rw [h4, hs4]⟩

/-- C4: for an order of the caller — if it is pending and `pay_order`
succeeds, the order ends paid with payment_status completed, one active
progress-0 enrollment is created per course item, and each product's
stock is decremented by the total quantity its items demand, flipping
its status to out_of_stock when the result reaches 0 or less; if the
order is not pending, `pay_order` returns an error and the database is
unchanged. -/
theorem pay_order_effects (db : DB) (uid oid : Nat) (pm? : Option String) (o : Order)
    (hfind : findOrder db oid uid = some o) :
    (o.status = "pending" → isErr (pay_order db uid oid pm?) = false →
      ((∀ o2 ∈ (applyWrite db (pay_order db uid oid pm?)).orders,
          o2.id = oid → o2.user_id = uid →
          o2.status = "paid" ∧ o2.payment_status = "completed") ∧
       ((applyWrite db (pay_order db uid oid pm?)).enrollments.length =
          db.enrollments.length +
            ((orderItemsOf db oid).filter
              (fun it => it.item_type == "course")).length) ∧
       (∀ it ∈ orderItemsOf db oid, it.item_type = "course" →
          ∃ e ∈ (applyWrite db (pay_order db uid oid pm?)).enrollments,
            e.user_id = uid ∧ e.course_id = it.course_id.getD 0 ∧
            e.status = "active" ∧ e.progress = 0) ∧
       (∀ pid p, db.products pid = some p →
          ∃ p2, (applyWrite db (pay_order db uid oid pm?)).products pid = some p2 ∧
            p2.stock_quantity =
              p.stock_quantity - payDemand (orderItemsOf db oid) pid ∧
            (payTouches (orderItemsOf db oid) pid = true → p2.stock_quantity ≤ 0 →
              p2.status = "out_of_stock") ∧
            (payTouches (orderItemsOf db oid) pid = false → p2 = p)))) ∧
    (o.status ≠ "pending" →
      pay_order db uid oid pm? = .error (400, "Order is not in pending status") ∧
      applyWrite db (pay_order db uid oid pm?) = db) := by
  constructor
  · intro hpend hsucc
    by_cases hb : blank (effPayMethod pm? o) = true
    · have hres : pay_order db uid oid pm? = .error (400, "Payment method is required") := by
        rw [pay_order_eq db uid oid pm? o hfind]
        rw [if_neg (fun hne => hne hpend), if_pos hb]
      rw [hres] at hsucc
      simp [isErr] at hsucc
    · by_cases hd : hasDupEnrollment
          (processPayItems uid (orderItemsOf db oid) db).enrollments = true
      · have hres : pay_order db uid oid pm? =
            .error (500, "UNIQUE constraint failed: enrollments.user_id, enrollments.course_id") := by
          rw [pay_order_eq db uid oid pm? o hfind]
          rw [if_neg (fun hne => hne hpend), if_neg hb, if_pos hd]
        rw [hres] at hsucc
        simp [isErr] at hsucc
      · have hres : pay_order db uid oid pm? =
            .ok { processPayItems uid (orderItemsOf db oid) db with
                  orders := (processPayItems uid (orderItemsOf db oid) db).orders.map
                    (fun o2 =>
                      if o2.id = oid ∧ o2.user_id = uid then
                        { o2 with status := "paid", payment_status := "completed",
                                  payment_method := effPayMethod pm? o }
                      else o2) } := by
          rw [pay_order_eq db uid oid pm? o hfind]
          rw [if_neg (fun hne => hne hpend), if_neg hb, if_neg hd]
        rw [hres]
        simp only [applyWrite]
        obtain ⟨news, hnews, hlen, hmem⟩ :=
          processPayItems_enrollments uid (orderItemsOf db oid) db
        refine ⟨?_, ?_, ?_, ?_⟩
        · intro o2 h2 hid2 huid2
          rw [List.mem_map] at h2
          obtain ⟨o1, _, heq⟩ := h2
          by_cases hcond : o1.id = oid ∧ o1.user_id = uid
          · rw [if_pos hcond] at heq
            subst heq
            exact ⟨rfl, rfl⟩
          · rw [if_neg hcond] at heq
            subst heq
            exact absurd ⟨hid2, huid2⟩ hcond
        · show (processPayItems uid (orderItemsOf db oid) db).enrollments.length = _
          rw [hnews]
          simp [hlen]
        · intro it hit hc
          obtain ⟨e, he, hp1, hp2, hp3, hp4⟩ := hmem it hit hc
          refine ⟨e, ?_, hp1, hp2, hp3, hp4⟩
          show e ∈ (processPayItems uid (orderItemsOf db oid) db).enrollments
          rw [hnews]
          exact List.mem_append_right _ he
        · intro pid p hp
          refine ⟨applyPayItems (orderItemsOf db oid) pid p, ?_, ?_, ?_, ?_⟩
          · show (processPayItems uid (orderItemsOf db oid) db).products pid = _
            rw [processPayItems_products, hp]
            rfl
          · rw [applyPayItems_stock]
          · intro htch hs
            exact applyPayItems_flip _ _ _ htch hs
          · intro htch
            exact payTouches_false_fix _ _ _ htch
  · intro hne
    have hres : pay_order db uid oid pm? =
        .error (400, "Order is not in pending status") := by
      rw [pay_order_eq db uid oid pm? o hfind]
      rw [if_pos hne]
    exact ⟨hres, by rw [hres]; rfl⟩

/-- C4 (witness): paying the concrete pending order creates exactly one
enrollment for its single course item. -/
theorem pay_order_effects_witness :
    (applyWrite dbPayFull (pay_order dbPayFull 9 1 (some "card"))).enrollments.length =
      dbPayFull.enrollments.length +
        ((orderItemsOf dbPayFull 1).filter
          (fun it => it.item_type == "course")).length :=
  ((pay_order_effects dbPayFull 9 1 (some "card")
      { pendOrder with total_amount := 110 } (by decide)).1 rfl (by decide)).2.1

/-- A line accepted by `create_order`'s validation satisfies
`itemRowSpec` and belongs to the new order. -/
theorem buildOrderItem_ok (db : DB) (uid oid iid : Nat) (it : ItemReq)
    (row : OrderItem) (h : buildOrderItem db uid oid iid it = .ok row) :
    row.order_id = oid ∧ itemRowSpec db row := by
  unfold buildOrderItem at h
  by_cases h0 : it.type.getD "" = "" ∨ it.id.getD 0 = 0
  · rw [if_pos h0] at h
    simp at h
  · rw [if_neg h0] at h
    by_cases hc : it.type.getD "" = "course"
    · rw [if_pos hc] at h
      cases hcourse : db.courses (it.id.getD 0) with
      | none =>
        rw [hcourse] at h
        simp at h
      | some course =>
        rw [hcourse] at h
        dsimp only at h
        by_cases hst : course.status ≠ "active"
        · rw [if_pos hst] at h
          simp at h
        · rw [if_neg hst] at h
          by_cases hen : (enrollmentFor db uid (it.id.getD 0)).isSome = true
          · rw [if_pos hen] at h
            simp at h
          · rw [if_neg hen] at h
            injection h with h
            subst h
            exact ⟨rfl, Or.inl ⟨rfl, it.id.getD 0, course, rfl, hcourse, rfl, rfl⟩⟩
    · rw [if_neg hc] at h
      by_cases hp : it.type.getD "" = "product"
      · rw [if_pos hp] at h
        cases hprod : db.products (it.id.getD 0) with
        | none =>
          rw [hprod] at h
          simp at h
        | some product =>
          rw [hprod] at h
          dsimp only at h
          by_cases hst : product.status ≠ "active"
          · rw [if_pos hst] at h
            simp at h
          · rw [if_neg hst] at h
            by_cases hqt : product.stock_quantity < it.quantity.getD 1
            · rw [if_pos hqt] at h
              simp at h
            · rw [if_neg hqt] at h
              injection h with h
              subst h
              exact ⟨rfl, Or.inr ⟨rfl, it.id.getD 0, product, rfl, hprod, rfl⟩⟩
      · rw [if_neg hp] at h
        simp at h

/-- Every line accepted by the whole `create_order` loop satisfies the
per-line characterization. -/
theorem buildOrderItems_ok (db : DB) (uid oid : Nat) :
    ∀ (items : List ItemReq) (iid : Nat) (rows : List OrderItem),
      buildOrderItems db uid oid iid items = .ok rows →
      ∀ r ∈ rows, r.order_id = oid ∧ itemRowSpec db r := by
  intro items
  induction items with
  | nil =>
    intro iid rows h r hr
    unfold buildOrderItems at h
    injection h with h
    subst h
    simp at hr
  | cons it rest ih =>
    intro iid rows h r hr
    unfold buildOrderItems at h
    cases h1 : buildOrderItem db uid oid iid it with
    | error e =>
      rw [h1] at h
      simp at h
    | ok row =>
      rw [h1] at h
      cases h2 : buildOrderItems db uid oid (iid + 1) rest with
      | error e =>
        rw [h2] at h
        simp at h
      | ok rows2 =>
        rw [h2] at h
        injection h with h
        subst h
        rcases List.mem_cons.mp hr with hr | hr
        · subst hr
          exact buildOrderItem_ok db uid oid iid it r h1
        · exact ih (iid + 1) rows2 h2 r hr

/-- C5: on success, the created order's total_amount is the sum of the
prices of its OrderItems; each course line has quantity 1 and the
course's price, each product line has price = unit price × quantity. -/
theorem create_order_total_is_sum (db : DB) (uid : Nat) (pm? : Option String)
    (items : List ItemReq)
    (hwf : ∀ it ∈ db.order_items, it.order_id ≠ db.next_order_id)
    (hok : isErr (create_order db uid pm? items) = false) :
    ∃ ord : Order,
      (applyWrite db (create_order db uid pm? items)).orders = db.orders ++ [ord] ∧
      ord.id = db.next_order_id ∧
      ord.total_amount =
        (((applyWrite db (create_order db uid pm? items)).order_items.filter
            (fun it => it.order_id == ord.id)).map (fun it => it.price)).sum ∧
      ∀ it ∈ (applyWrite db (create_order db uid pm? items)).order_items,
        it.order_id = ord.id → itemRowSpec db it := by
  by_cases hempty : items.isEmpty = true
  · have hres : create_order db uid pm? items = .error (400, "Order items are required") := by
      unfold create_order
      rw [if_pos hempty]
    rw [hres] at hok
    simp [isErr] at hok
  · cases hrows : buildOrderItems db uid db.next_order_id db.next_item_id items with
    | error e =>
      have hres : create_order db uid pm? items = .error e := by
        unfold create_order
        rw [if_neg hempty, hrows]
      rw [hres] at hok
      simp [isErr] at hok
    | ok rows =>
      have hres : create_order db uid pm? items =
          .ok { db with
                orders := db.orders ++
                  [{ id := db.next_order_id, user_id := uid,
                     total_amount := (rows.map (fun r => r.price)).sum,
                     status := "pending", payment_method := some (pm?.getD "card"),
                     payment_status := "pending" }],
                order_items := db.order_items ++ rows,
                next_order_id := db.next_order_id + 1,
                next_item_id := db.next_item_id + rows.length } := by
        unfold create_order
        rw [if_neg hempty, hrows]
      rw [hres]
      simp only [applyWrite]
      have hall := buildOrderItems_ok db uid db.next_order_id items db.next_item_id
        rows hrows
      refine ⟨_, rfl, rfl, ?_, ?_⟩
      · show (rows.map (fun r => r.price)).sum = _
        rw [List.filter_append]
        have hleft : db.order_items.filter
            (fun it => it.order_id == db.next_order_id) = [] := by
          refine List.filter_eq_nil_iff.mpr ?_
          intro a ha
          simp only [beq_iff_eq]
          exact hwf a ha
        have hright : rows.filter (fun it => it.order_id == db.next_order_id) = rows := by
          refine List.filter_eq_self.mpr ?_
          intro a ha
          simp only [beq_iff_eq]
          exact (hall a ha).1
        rw [hleft, hright, List.nil_append]
      · intro it hit hid
        rcases List.mem_append.mp hit with hit | hit
        · exact absurd hid (hwf it hit)
        · exact (hall it hit).2

/-- C5 (witness): ordering the concrete course (price 100) and 3 units of
the concrete product (price 5) yields an order whose total is the sum of
its two line prices. -/
theorem create_order_total_is_sum_witness :
    ∃ ord : Order,
      (applyWrite dbCatalog (create_order dbCatalog 9 none
          [{ type := some "course", id := some 2, quantity := none },
           { type := some "product", id := some 1, quantity := some 3 }])).orders =
        dbCatalog.orders ++ [ord] ∧
      ord.id = dbCatalog.next_order_id ∧
      ord.total_amount =
        (((applyWrite dbCatalog (create_order dbCatalog 9 none
            [{ type := some "course", id := some 2, quantity := none },
             { type := some "product", id := some 1, quantity := some 3 }])).order_items.filter
            (fun it => it.order_id == ord.id)).map (fun it => it.price)).sum ∧
      ∀ it ∈ (applyWrite dbCatalog (create_order dbCatalog 9 none
          [{ type := some "course", id := some 2, quantity := none },
           { type := some "product", id := some 1, quantity := some 3 }])).order_items,
        it.order_id = ord.id → itemRowSpec dbCatalog it :=
  create_order_total_is_sum dbCatalog 9 none
    [{ type := some "course", id := some 2, quantity := none },
     { type := some "product", id := some 1, quantity := some 3 }]
    (by simp [dbCatalog, emptyDB]) (by decide)

/-- The stored werkzeug-format hash always contains a `'$'` separator. -/
theorem dollar_mem_hash (salt pw : String) :
    '$' ∈ (generatePasswordHash salt pw).data := by
  unfold generatePasswordHash
  rw [String.data_append, String.data_append, String.data_append]
  apply List.mem_append_left
  apply List.mem_append_left
  apply List.mem_append_left
  decide

/-- The stored hash differs from any plaintext without a `'$'`. -/
theorem hash_ne_plain (salt pw : String) (h : '$' ∉ pw.data) :
    generatePasswordHash salt pw ≠ pw := by
  intro he
  have hm := dollar_mem_hash salt pw
  rw [he] at hm
  exact h hm

/-- C7: `register` returns a 400 validation error exactly when a required
field is blank, the (normalized) email lacks '@' or '.', the email is
already registered, or the password is shorter than 6 characters; every
error is a 400; on success the new user is appended with a salted
werkzeug hash as password (never the plaintext, for any plaintext without
a '$') and the token identity is the new user's id. -/
theorem register_validation_iff (salt : String) (db : DB) (req : RegisterReq) :
    (isErr (register salt db req) = true ↔
      (blank req.email = true ∨ blank req.password = true ∨
       blank req.full_name = true ∨
       containsChar (normalizeEmail (req.email.getD "")) '@' = false ∨
       containsChar (normalizeEmail (req.email.getD "")) '.' = false ∨
       (userByEmail db (normalizeEmail (req.email.getD ""))).isSome = true ∨
       (req.password.getD "").length < 6)) ∧
    (∀ c m, register salt db req = .error (c, m) → c = 400) ∧
    (∀ db2 u t, register salt db req = .ok (db2, u, t) →
      db2.users = db.users ++ [u] ∧ u.id = db.next_user_id ∧ t = u.id ∧
      u.password = generatePasswordHash salt (req.password.getD "") ∧
      ('$' ∉ (req.password.getD "").data → u.password ≠ req.password.getD "")) := by
  unfold register
  split_ifs with h1 h2 h3 h4 h5 h6
  · refine ⟨iff_of_true rfl (Or.inl h1), ?_, ?_⟩
    · intro c m hcm
      injection hcm with hcm
      injection hcm with hc hm
      omega
    · intro db2 u t hok
      simp at hok
  · refine ⟨iff_of_true rfl (Or.inr (Or.inl h2)), ?_, ?_⟩
    · intro c m hcm
      injection hcm with hcm
      injection hcm with hc hm
      omega
    · intro db2 u t hok
      simp at hok
  · refine ⟨iff_of_true rfl (Or.inr (Or.inr (Or.inl h3))), ?_, ?_⟩
    · intro c m hcm
      injection hcm with hcm
      injection hcm with hc hm
      omega
    · intro db2 u t hok
      simp at hok
  · refine ⟨iff_of_true rfl ?_, ?_, ?_⟩
    · simp only [Bool.or_eq_true, Bool.not_eq_true'] at h4
      rcases h4 with h4 | h4
      · exact Or.inr (Or.inr (Or.inr (Or.inl h4)))
      · exact Or.inr (Or.inr (Or.inr (Or.inr (Or.inl h4))))
    · intro c m hcm
      injection hcm with hcm
      injection hcm with hc hm
      omega
    · intro db2 u t hok
      simp at hok
  · refine ⟨iff_of_true rfl
      (Or.inr (Or.inr (Or.inr (Or.inr (Or.inr (Or.inl h5)))))), ?_, ?_⟩
    · intro c m hcm
      injection hcm with hcm
      injection hcm with hc hm
      omega
    · intro db2 u t hok
      simp at hok
  · refine ⟨iff_of_true rfl
      (Or.inr (Or.inr (Or.inr (Or.inr (Or.inr (Or.inr h6)))))), ?_, ?_⟩
    · intro c m hcm
      injection hcm with hcm
      injection hcm with hc hm
      omega
    · intro db2 u t hok
      simp at hok
  · simp only [Bool.or_eq_true, Bool.not_eq_true'] at h4
    push_neg at h4
    refine ⟨iff_of_false (by simp [isErr]) ?_, ?_, ?_⟩
    · intro hdisj
      rcases hdisj with h | h | h | h | h | h | h
      · exact h1 h
      · exact h2 h
      · exact h3 h
      · exact h4.1 h
      · exact h4.2 h
      · exact h5 h
      · exact h6 h
    · intro c m hcm
      simp at hcm
    · intro db2 u t hok
      simp only [Except.ok.injEq, Prod.mk.injEq] at hok
      obtain ⟨hdb, hu, ht⟩ := hok
      subst hdb
      subst hu
      refine ⟨rfl, rfl, ht.symm, rfl, ?_⟩
      intro hnd
      exact hash_ne_plain salt (req.password.getD "") hnd

/-- C7 (witness): a 5-character password is rejected as a validation
error. -/
theorem register_validation_iff_witness :
    isErr (register "s0" emptyDB (reqReg "abcde" none)) = true :=
  (register_validation_iff "s0" emptyDB (reqReg "abcde" none)).1.mpr (by decide)

end Platform
